import Mathlib

/-!
Verification of the PTY supervisor / output state classifier of the
claudeck repository (`src/wrapper/claude_deck_wrapper.py` and the
simplified variant `src/claude_deck_wrapper.py`).

Strings of the Python program are modelled as `List Char` (a Python `str`
is a sequence of Unicode code points); byte strings as `List Nat` with
each entry below 256.  Wall-clock timestamps (`time.time()`,
`time.sleep`) are omitted from the model: no claim refers to them.
-/

namespace Claudeck

/-- Models the Python substring test `needle == s[: len needle]` used to build
`in`: does `s` start with `needle`? -/
def listStartsWith : List Char → List Char → Bool
  | [], _ => true
  | _ :: _, [] => false
  | a :: as, b :: bs => a == b && listStartsWith as bs

/-- Models Python's `needle in hay` on strings: `needle` occurs as a
contiguous substring of `hay` (the empty needle always occurs). -/
def containsSub (needle : List Char) : List Char → Bool
  | [] => listStartsWith needle []
  | c :: rest => listStartsWith needle (c :: rest) || containsSub needle rest

/-- Models CPython's `Py_UNICODE_ISSPACE`, the character class stripped by
`str.strip()` with no argument. -/
def pyIsSpace (c : Char) : Bool :=
  let n := c.toNat
  (9 ≤ n && n ≤ 13) || (28 ≤ n && n ≤ 32) || n == 0x85 || n == 0xA0 ||
    n == 0x1680 || (0x2000 ≤ n && n ≤ 0x200A) || n == 0x2028 || n == 0x2029 ||
    n == 0x202F || n == 0x205F || n == 0x3000

/-- Models Python's `str.strip()`: remove leading and trailing whitespace. -/
def pyStrip (l : List Char) : List Char :=
  ((l.dropWhile pyIsSpace).reverse.dropWhile pyIsSpace).reverse

/-- Models Python's `str.lower()` on the ASCII case mapping.  Every
lowercase pattern the classifier matches against the lowered text is plain
ASCII, so only the ASCII mapping is observable in the matched rules. -/
def pyToLower (c : Char) : Char :=
  if 'A' ≤ c && c ≤ 'Z' then Char.ofNat (c.toNat + 32) else c

/-- Models Python's `s.split('\n')`: split at every newline, keeping empty
pieces (`''.split('\n') == ['']`). -/
def splitOnNl : List Char → List (List Char)
  | [] => [[]]
  | c :: rest =>
    if c == '\n' then [] :: splitOnNl rest
    else
      match splitOnNl rest with
      | [] => [[c]]
      | l :: ls => (c :: l) :: ls

/-- Character class `[0-9;]` of the ANSI-stripping regular expression. -/
def isAnsiParam (c : Char) : Bool := ('0' ≤ c && c ≤ '9') || c == ';'

/-- Scanner behind `stripAnsi`, structurally recursive on a fuel bound:
every recursive call strictly shrinks the input list, so with fuel equal
to the input length the fuel never runs out and the `fuel = 0` fallback is
unreachable. -/
def stripAnsiAux : Nat → List Char → List Char
  | 0, _ => []
  | _, [] => []
  | fuel + 1, c :: rest =>
    if c == '\x1b' then
      match rest with
      | br :: rest1 =>
        if br == '[' then
          match rest1.dropWhile isAnsiParam with
          | f :: r =>
            if f == 'm' || f == 'K' then stripAnsiAux fuel r
            else c :: stripAnsiAux fuel (br :: rest1)
          | [] => c :: stripAnsiAux fuel (br :: rest1)
        else c :: stripAnsiAux fuel (br :: rest1)
      | [] => [c]
    else c :: stripAnsiAux fuel rest

/-- Models `re.sub(r'\x1b\[[0-9;]*[mK]', '', buffer)`: left-to-right,
non-overlapping removal of color/erase escape sequences.  The character
class `[0-9;]` never contains `m`/`K`, so the greedy parameter run admits
no backtracking and this direct scan is exact. -/
def stripAnsi (l : List Char) : List Char := stripAnsiAux l.length l

/-- Continuation byte test `0x80 ≤ b ≤ 0xBF` of the UTF-8 decoder. -/
def isCont (b : Nat) : Bool := 0x80 ≤ b && b ≤ 0xBF

/-- Valid range of the second byte of a multi-byte UTF-8 sequence headed by
`b`, as enforced by CPython's decoder (excludes overlong forms and
surrogates). -/
def validSecond (b c1 : Nat) : Bool :=
  if b == 0xE0 then 0xA0 ≤ c1 && c1 ≤ 0xBF
  else if b == 0xED then 0x80 ≤ c1 && c1 ≤ 0x9F
  else if b == 0xF0 then 0x90 ≤ c1 && c1 ≤ 0xBF
  else if b == 0xF4 then 0x80 ≤ c1 && c1 ≤ 0x8F
  else 0x80 ≤ c1 && c1 ≤ 0xBF

/-- Decoder behind `utf8DecodeIgnore`, structurally recursive on a fuel
bound: every recursive call strictly shrinks the byte list, so with fuel
equal to the input length the `fuel = 0` fallback is unreachable. -/
def utf8DecodeIgnoreAux : Nat → List Nat → List Char
  | 0, _ => []
  | _, [] => []
  | fuel + 1, b :: rest =>
    if b < 0x80 then Char.ofNat b :: utf8DecodeIgnoreAux fuel rest
    else if b < 0xC2 then utf8DecodeIgnoreAux fuel rest
    else if b < 0xE0 then
      match rest with
      | [] => []
      | c1 :: rest1 =>
        if isCont c1 then
          Char.ofNat ((b - 0xC0) * 64 + (c1 - 0x80)) ::
            utf8DecodeIgnoreAux fuel rest1
        else utf8DecodeIgnoreAux fuel (c1 :: rest1)
    else if b < 0xF0 then
      match rest with
      | [] => []
      | c1 :: rest1 =>
        if validSecond b c1 then
          match rest1 with
          | [] => []
          | c2 :: rest2 =>
            if isCont c2 then
              Char.ofNat ((b - 0xE0) * 4096 + (c1 - 0x80) * 64 +
                  (c2 - 0x80)) :: utf8DecodeIgnoreAux fuel rest2
            else utf8DecodeIgnoreAux fuel (c2 :: rest2)
        else utf8DecodeIgnoreAux fuel (c1 :: rest1)
    else if b < 0xF5 then
      match rest with
      | [] => []
      | c1 :: rest1 =>
        if validSecond b c1 then
          match rest1 with
          | [] => []
          | c2 :: rest2 =>
            if isCont c2 then
              match rest2 with
              | [] => []
              | c3 :: rest3 =>
                if isCont c3 then
                  Char.ofNat ((b - 0xF0) * 262144 + (c1 - 0x80) * 4096 +
                      (c2 - 0x80) * 64 + (c3 - 0x80)) ::
                    utf8DecodeIgnoreAux fuel rest3
                else utf8DecodeIgnoreAux fuel (c3 :: rest3)
            else utf8DecodeIgnoreAux fuel (c2 :: rest2)
        else utf8DecodeIgnoreAux fuel (c1 :: rest1)
    else utf8DecodeIgnoreAux fuel rest

/-- Models CPython's `bytes.decode('utf-8', errors='ignore')`: a total
function that decodes valid sequences and silently skips each invalid
"maximal subpart" (an invalid start byte is skipped alone; a sequence that
goes wrong after n valid bytes skips those n bytes and resumes at the
offending byte; a sequence truncated by the end of input is discarded). -/
def utf8DecodeIgnore (l : List Nat) : List Char :=
  utf8DecodeIgnoreAux l.length l

/-- Decoder behind `utf8DecodeReplace`, structurally recursive on a fuel
bound exactly like `utf8DecodeIgnoreAux`. -/
def utf8DecodeReplaceAux : Nat → List Nat → List Char
  | 0, _ => []
  | _, [] => []
  | fuel + 1, b :: rest =>
    if b < 0x80 then Char.ofNat b :: utf8DecodeReplaceAux fuel rest
    else if b < 0xC2 then '�' :: utf8DecodeReplaceAux fuel rest
    else if b < 0xE0 then
      match rest with
      | [] => ['�']
      | c1 :: rest1 =>
        if isCont c1 then
          Char.ofNat ((b - 0xC0) * 64 + (c1 - 0x80)) ::
            utf8DecodeReplaceAux fuel rest1
        else '�' :: utf8DecodeReplaceAux fuel (c1 :: rest1)
    else if b < 0xF0 then
      match rest with
      | [] => ['�']
      | c1 :: rest1 =>
        if validSecond b c1 then
          match rest1 with
          | [] => ['�']
          | c2 :: rest2 =>
            if isCont c2 then
              Char.ofNat ((b - 0xE0) * 4096 + (c1 - 0x80) * 64 +
                  (c2 - 0x80)) :: utf8DecodeReplaceAux fuel rest2
            else '�' :: utf8DecodeReplaceAux fuel (c2 :: rest2)
        else '�' :: utf8DecodeReplaceAux fuel (c1 :: rest1)
    else if b < 0xF5 then
      match rest with
      | [] => ['�']
      | c1 :: rest1 =>
        if validSecond b c1 then
          match rest1 with
          | [] => ['�']
          | c2 :: rest2 =>
            if isCont c2 then
              match rest2 with
              | [] => ['�']
              | c3 :: rest3 =>
                if isCont c3 then
                  Char.ofNat ((b - 0xF0) * 262144 + (c1 - 0x80) * 4096 +
                      (c2 - 0x80) * 64 + (c3 - 0x80)) ::
                    utf8DecodeReplaceAux fuel rest3
                else '�' :: utf8DecodeReplaceAux fuel (c3 :: rest3)
            else '�' :: utf8DecodeReplaceAux fuel (c2 :: rest2)
        else '�' :: utf8DecodeReplaceAux fuel (c1 :: rest1)
    else '�' :: utf8DecodeReplaceAux fuel rest

/-- Models CPython's `bytes.decode('utf-8', errors='replace')`: identical
to the `ignore` handler except that every skipped maximal subpart emits
one U+FFFD replacement character. -/
def utf8DecodeReplace (l : List Nat) : List Char :=
  utf8DecodeReplaceAux l.length l

/-- Models Python's `str.encode()` (UTF-8) for a single character. -/
def utf8EncodeChar (c : Char) : List Nat :=
  let n := c.toNat
  if n < 0x80 then [n]
  else if n < 0x800 then [0xC0 + n / 64, 0x80 + n % 64]
  else if n < 0x10000 then
    [0xE0 + n / 4096, 0x80 + (n / 64) % 64, 0x80 + n % 64]
  else
    [0xF0 + n / 262144, 0x80 + (n / 4096) % 64, 0x80 + (n / 64) % 64,
      0x80 + n % 64]

/-- Models Python's `str.encode()` (UTF-8) on a whole string. -/
def pyEncode (s : List Char) : List Nat := (s.map utf8EncodeChar).flatten

/-- Mutable fields of `ClaudeState` (`src/wrapper/claude_deck_wrapper.py`,
`__init__`).  The `last_update` wall-clock timestamp is omitted: it records
`time.time()` and no claim refers to it. -/
structure ClaudeState where
  mode : List Char
  model : List Char
  current_prompt : List Char
  buffer : List Char
deriving DecidableEq

/-- Models `ClaudeState.__init__`. -/
def ClaudeState.init : ClaudeState :=
  { mode := "unknown".data, model := "unknown".data,
    current_prompt := [], buffer := [] }

/-- Models the buffer bound of `parse_output`: keep only the last 2000
characters (`self.buffer = self.buffer[-2000:]` when the length exceeds
2000). -/
def truncBuffer (l : List Char) : List Char :=
  if l.length > 2000 then l.drop (l.length - 2000) else l

/-- Models the `if`/`elif` chain of `parse_output` (lines 49-83 of
`src/wrapper/claude_deck_wrapper.py`) that re-evaluates `mode`/`model` from
the chunk just received.  `text` is the decoded chunk, `lower` its
lowercased form, `mm` the previous `(mode, model)` pair.  The chain is
ordered and first-match-wins: once a branch fires, no later branch is
evaluated. -/
def classifyChunk (text lower : List Char) (mm : List Char × List Char) :
    List Char × List Char :=
  if containsSub "⏵⏵ auto-accept edits on".data text then
    ("auto-accept".data, mm.2)
  else if containsSub "⏸ plan mode on".data text then ("plan".data, mm.2)
  else if containsSub "? for shortcuts".data text then
    ("interactive".data, mm.2)
  else if containsSub "Press Ctrl-C again to exit".data text then
    ("exit-confirm".data, mm.2)
  else if containsSub "Welcome to Claude Code".data text then
    ("startup".data, mm.2)
  else if ["(y/n)".data, "yes/no".data, "confirm".data,
      "continue?".data].any (fun p => containsSub p lower) then
    ("confirmation".data, mm.2)
  else if ["1.".data, "2.".data, "3.".data, "select".data,
      "choose".data].any (fun p => containsSub p lower) then
    ("choice".data, mm.2)
  else if containsSub "thinking".data lower ||
      containsSub "processing".data lower then ("thinking".data, mm.2)
  else if containsSub "error".data lower ||
      containsSub "failed".data lower then ("error".data, mm.2)
  else if containsSub "Set model to opus".data text then (mm.1, "opus".data)
  else if containsSub "Set model to Default".data text ||
      containsSub "Set model to sonnet".data text then (mm.1, "sonnet".data)
  else if containsSub ">".data text && !containsSub "⏵⏵".data text then
    ("interactive".data, mm.2)
  else mm

/-- Test applied to each stripped line by the prompt-extraction loop of
`parse_output`: `clean_line and '>' in clean_line and not
clean_line.startswith('[')`. -/
def promptLineOk (c : List Char) : Bool :=
  !c.isEmpty && containsSub ">".data c && !listStartsWith "[".data c

/-- Models the `for line in reversed(lines)` loop of `parse_output`:
return the first stripped line (scanning the given list in order) that
passes `promptLineOk`, or `none` when the loop falls through. -/
def firstQualifying : List (List Char) → Option (List Char)
  | [] => none
  | l :: rest =>
    if promptLineOk (pyStrip l) then some (pyStrip l)
    else firstQualifying rest

/-- Prompt extraction of `parse_output` (lines 85-93): strip the ANSI
color/erase sequences from the whole buffer, split into lines, scan from
the most recent line backward and return the first qualifying stripped
line. -/
def extractPromptOpt (buf : List Char) : Option (List Char) :=
  firstQualifying (splitOnNl (stripAnsi buf)).reverse

/-- Models `ClaudeState.parse_output` of `src/wrapper/claude_deck_wrapper.py`:
decode the chunk with `errors='ignore'`, append to the buffer, truncate the
buffer to its 2000-character capacity, re-evaluate `mode`/`model` from the
chunk, and re-run prompt extraction over the whole buffer (a call that
finds no qualifying line leaves `current_prompt` untouched). -/
def ClaudeState.parse_output (s : ClaudeState) (data : List Nat) :
    ClaudeState :=
  let text := utf8DecodeIgnore data
  let buffer := truncBuffer (s.buffer ++ text)
  let lower := text.map pyToLower
  let mm := classifyChunk text lower (s.mode, s.model)
  { mode := mm.1, model := mm.2,
    current_prompt := (extractPromptOpt buffer).getD s.current_prompt,
    buffer := buffer }

/-- Pure fields of the dictionary returned by `ClaudeState.get_state`
(the `last_update` timestamp and the derived `button_config` table are
omitted; no claim refers to them). -/
structure Snapshot where
  mode : List Char
  model : List Char
  prompt : List Char
  buffer_size : Nat
deriving DecidableEq

/-- Models `ClaudeState.get_state`. -/
def ClaudeState.get_state (s : ClaudeState) : Snapshot :=
  { mode := s.mode, model := s.model, prompt := s.current_prompt,
    buffer_size := s.buffer.length }

/-- Byte sequences written to the master descriptor by
`ClaudeWrapper.send_command` for a given command, one list entry per
`os.write` call (the ≈1ms `time.sleep` between the two writes of the
general case has no byte-level effect and is not modelled). -/
def framingWrites (cmd : List Char) : List (List Nat) :=
  if cmd.head? = some '\x1b' then [pyEncode cmd]
  else if cmd = [] then [[13]]
  else [pyEncode cmd, [13]]

/-- Models the `try` body of `send_command` against a master-side channel:
`chOpen = false` means `os.write` raises `OSError` (child gone), `none`
models that exception reaching the `except OSError` handler. -/
def osWriteAll (chOpen : Bool) (ws : List (List Nat)) :
    Option (List (List Nat)) :=
  if chOpen then some ws else none

/-- Models `ClaudeWrapper.send_command` of `src/wrapper/claude_deck_wrapper.py`:
guard on a truthy `master_fd` and `self.running`, perform the framed
writes, catch `OSError` and report `False` with no retry.  Returns the
success flag and the byte sequences actually written. -/
def send_command (masterFd : Nat) (running chOpen : Bool) (cmd : List Char) :
    Bool × List (List Nat) :=
  if masterFd != 0 && running then
    match osWriteAll chOpen (framingWrites cmd) with
    | some ws => (true, ws)
    | none => (false, [])
  else (false, [])

/-- Value bound to `command` in `do_POST` after `json.loads` succeeded:
the `"command"` key may be absent, JSON `null`, or a string. -/
inductive CmdField where
  | absent
  | null
  | str (s : List Char)
deriving DecidableEq

/-- Models `StreamDeckHandler.do_POST` of `src/wrapper/claude_deck_wrapper.py`.
The request body is `none` when `json.loads` raises, otherwise the value of
the `"command"` key.  Result: HTTP status code, the `(status, command)`
fields of the JSON response when one is sent, and the bytes written to the
master descriptor.  Note `command = data.get('command', '')` defaults a
missing key to the empty string, and the guard is `command is not None`. -/
def wrapper_do_POST (masterFd : Nat) (running chOpen : Bool)
    (path : List Char) (body : Option CmdField) :
    Nat × Option (List Char × List Char) × List (List Nat) :=
  if path = "/command".data then
    match body with
    | none => (400, none, [])
    | some f =>
      match (match f with
        | CmdField.absent => some ([] : List Char)
        | CmdField.null => none
        | CmdField.str s => some s) with
      | some c =>
        let r := send_command masterFd running chOpen c
        (200, some ((if r.1 then "sent".data else "failed".data), c), r.2)
      | none => (400, none, [])
  else (404, none, [])

/-- Models `ClaudeWrapper.send_command` of the simplified variant
`src/claude_deck_wrapper.py`: no special framing, always command bytes
then a carriage return. -/
def simple_send_command (masterFd : Nat) (running chOpen : Bool)
    (cmd : List Char) : Bool × List (List Nat) :=
  if masterFd != 0 && running then
    match osWriteAll chOpen [pyEncode cmd, [13]] with
    | some ws => (true, ws)
    | none => (false, [])
  else (false, [])

/-- Models `StreamDeckHandler.do_POST` of the simplified variant
`src/claude_deck_wrapper.py`: same as the wrapper variant except the guard
is `if command:` (Python truthiness), so an absent key, a JSON `null` and
the empty string all fall to the 400 branch. -/
def simple_do_POST (masterFd : Nat) (running chOpen : Bool)
    (path : List Char) (body : Option CmdField) :
    Nat × Option (List Char × List Char) × List (List Nat) :=
  if path = "/command".data then
    match body with
    | none => (400, none, [])
    | some f =>
      match (match f with
        | CmdField.absent => some ([] : List Char)
        | CmdField.null => none
        | CmdField.str s => some s) with
      | some c =>
        if c.isEmpty then (400, none, [])
        else
          let r := simple_send_command masterFd running chOpen c
          (200, some ((if r.1 then "sent".data else "failed".data), c), r.2)
      | none => (400, none, [])
  else (404, none, [])

/-- Operating-system resources touched by `ClaudeWrapper.cleanup`: the set
of open file descriptors and the set of existing child processes. -/
structure SysState where
  openFds : List Nat
  alivePids : List Nat
deriving DecidableEq

/-- Models `os.close`: `none` is the `OSError` (EBADF) raised when the
descriptor is not open. -/
def osClose (fd : Nat) (sys : SysState) : Option SysState :=
  if fd ∈ sys.openFds then
    some { sys with openFds := sys.openFds.erase fd }
  else none

/-- Fields of `ClaudeWrapper` that `cleanup` reads or writes.
`debugHandle`: `none` when no debug file was configured, `some true` an
open handle, `some false` a closed handle. -/
structure WrapperState where
  running : Bool
  debugHandle : Option Bool
  originalSettings : Bool
  httpServer : Bool
  masterFd : Option Nat
  claudePid : Option Nat
deriving DecidableEq

/-- Models the `if self.claude_pid:` block of `cleanup`: SIGTERM then
SIGKILL, every `ProcessLookupError` caught, so this step is total and the
child ends up not alive. -/
def killChild (pid : Option Nat) (sys : SysState) : SysState :=
  match pid with
  | some p => if p != 0 then { sys with alivePids := sys.alivePids.erase p }
      else sys
  | none => sys

/-- Models `ClaudeWrapper.cleanup` of `src/wrapper/claude_deck_wrapper.py`,
step by step in source order: set `running = False`; close the debug
handle if any (a `ValueError` from a handle already closed is caught and
only printed); restore terminal settings (`termios.error` caught); shut
down the HTTP server (idempotent at this level); `os.close(self.master_fd)`
when `master_fd` is truthy — this call is NOT wrapped in a `try`, and
`cleanup` never resets `self.master_fd`, so its `OSError` propagates
(modelled as `none`); finally signal the child with every
`ProcessLookupError` caught. -/
def cleanup (w : WrapperState) (sys : SysState) :
    Option (WrapperState × SysState) :=
  let w1 := { w with running := false }
  let w2 := match w1.debugHandle with
    | some _ => { w1 with debugHandle := some false }
    | none => w1
  match w2.masterFd with
  | some fd =>
    if fd != 0 then
      match osClose fd sys with
      | some sys1 => some (w2, killChild w2.claudePid sys1)
      | none => none
    else some (w2, killChild w2.claudePid sys)
  | none => some (w2, killChild w2.claudePid sys)

/-- Two consecutive invocations of `cleanup`, the second on the state left
by the first; `none` as soon as either invocation raises. -/
def cleanupTwice (w : WrapperState) (sys : SysState) :
    Option (WrapperState × SysState) :=
  match cleanup w sys with
  | some (w1, sys1) => cleanup w1 sys1
  | none => none

/-- Wrapper state after `start_claude` opened the PTY (master descriptor 3
held open, debug file open, child process 42 running) and `run` installed
the terminal settings and HTTP server. -/
def startedWrapper : WrapperState :=
  { running := true, debugHandle := some true, originalSettings := true,
    httpServer := true, masterFd := some 3, claudePid := some 42 }

/-- System state matching `startedWrapper`. -/
def startedSys : SysState := { openFds := [3], alivePids := [42] }

/-- Modes the classifier can enumerate, as listed by the specification:
unknown, startup, interactive, plan, auto-accept, confirmation, choice,
thinking, error, exit-confirm. -/
def enumModes : List (List Char) :=
  ["unknown".data, "startup".data, "interactive".data, "plan".data,
    "auto-accept".data, "confirmation".data, "choice".data,
    "thinking".data, "error".data, "exit-confirm".data]

/-- Helper: the buffer truncation never leaves more than 2000 characters. -/
theorem truncBuffer_length_le (l : List Char) :
    (truncBuffer l).length ≤ 2000 := by
  unfold truncBuffer
  split
  · simp only [List.length_drop]
    omega
  · omega

/-- Helper: every branch of the classification chain either keeps `mode`
or assigns one of the enumerated mode strings. -/
theorem classifyChunk_fst_mem (text lower : List Char)
    (mm : List Char × List Char) :
    (classifyChunk text lower mm).1 = mm.1 ∨
      (classifyChunk text lower mm).1 ∈ enumModes := by
  unfold classifyChunk
  by_cases h1 : containsSub "⏵⏵ auto-accept edits on".data text = true
  · rw [if_pos h1]
    exact Or.inr (show "auto-accept".data ∈ enumModes from by decide)
  rw [if_neg h1]
  by_cases h2 : containsSub "⏸ plan mode on".data text = true
  · rw [if_pos h2]
    exact Or.inr (show "plan".data ∈ enumModes from by decide)
  rw [if_neg h2]
  by_cases h3 : containsSub "? for shortcuts".data text = true
  · rw [if_pos h3]
    exact Or.inr (show "interactive".data ∈ enumModes from by decide)
  rw [if_neg h3]
  by_cases h4 : containsSub "Press Ctrl-C again to exit".data text = true
  · rw [if_pos h4]
    exact Or.inr (show "exit-confirm".data ∈ enumModes from by decide)
  rw [if_neg h4]
  by_cases h5 : containsSub "Welcome to Claude Code".data text = true
  · rw [if_pos h5]
    exact Or.inr (show "startup".data ∈ enumModes from by decide)
  rw [if_neg h5]
  by_cases h6 : (["(y/n)".data, "yes/no".data, "confirm".data,
      "continue?".data].any fun p => containsSub p lower) = true
  · rw [if_pos h6]
    exact Or.inr (show "confirmation".data ∈ enumModes from by decide)
  rw [if_neg h6]
  by_cases h7 : (["1.".data, "2.".data, "3.".data, "select".data,
      "choose".data].any fun p => containsSub p lower) = true
  · rw [if_pos h7]
    exact Or.inr (show "choice".data ∈ enumModes from by decide)
  rw [if_neg h7]
  by_cases h8 : (containsSub "thinking".data lower ||
      containsSub "processing".data lower) = true
  · rw [if_pos h8]
    exact Or.inr (show "thinking".data ∈ enumModes from by decide)
  rw [if_neg h8]
  by_cases h9 : (containsSub "error".data lower ||
      containsSub "failed".data lower) = true
  · rw [if_pos h9]
    exact Or.inr (show "error".data ∈ enumModes from by decide)
  rw [if_neg h9]
  by_cases h10 : containsSub "Set model to opus".data text = true
  · rw [if_pos h10]; exact Or.inl rfl
  rw [if_neg h10]
  by_cases h11 : (containsSub "Set model to Default".data text ||
      containsSub "Set model to sonnet".data text) = true
  · rw [if_pos h11]; exact Or.inl rfl
  rw [if_neg h11]
  by_cases h12 : (containsSub ">".data text &&
      !containsSub "⏵⏵".data text) = true
  · rw [if_pos h12]
    exact Or.inr (show "interactive".data ∈ enumModes from by decide)
  rw [if_neg h12]
  exact Or.inl rfl

/-- Helper: a line returned by the prompt-scanning loop is never empty
(the loop requires a truthy `clean_line`). -/
theorem firstQualifying_some_ne_nil (ls : List (List Char)) (p : List Char)
    (h : firstQualifying ls = some p) : p ≠ [] := by
  induction ls with
  | nil => simp [firstQualifying] at h
  | cons l rest ih =>
    unfold firstQualifying at h
    by_cases hq : promptLineOk (pyStrip l) = true
    · rw [if_pos hq] at h
      cases h
      intro hnil
      rw [hnil] at hq
      simp [promptLineOk] at hq
    · rw [if_neg hq] at h
      exact ih h

/-- C1: for every pre-state and every ingested chunk, the classifier's
buffer after `parse_output` has at most 2000 characters (the configured
capacity), and therefore so does the `buffer_size` reported by
`get_state`; in particular this holds after each call of any sequence of
chunks. -/
theorem c1_buffer_bounded (s : ClaudeState) (d : List Nat) :
    (s.parse_output d).buffer.length ≤ 2000 ∧
      (s.parse_output d).get_state.buffer_size ≤ 2000 := by
  have hb : (s.parse_output d).buffer =
      truncBuffer (s.buffer ++ utf8DecodeIgnore d) := rfl
  constructor
  · rw [hb]; exact truncBuffer_length_le _
  · show (s.parse_output d).buffer.length ≤ 2000
    rw [hb]; exact truncBuffer_length_le _

/-- C2: whenever the decoded text of a chunk contains the literal marker
"⏵⏵ auto-accept edits on", `parse_output` sets `mode` to "auto-accept";
the marker is the first rule of the ordered first-match-wins chain, so a
bare ">" in the same chunk (or any later rule) cannot override it. -/
theorem c2_auto_accept_first_match (s : ClaudeState) (d : List Nat)
    (h : containsSub "⏵⏵ auto-accept edits on".data (utf8DecodeIgnore d) =
      true) :
    (s.parse_output d).mode = "auto-accept".data := by
  have hm : (s.parse_output d).mode =
      (classifyChunk (utf8DecodeIgnore d)
        ((utf8DecodeIgnore d).map pyToLower) (s.mode, s.model)).1 := rfl
  rw [hm]
  unfold classifyChunk
  rw [if_pos h]

/-- Witness for C2: a concrete chunk containing both the auto-accept
marker and a bare ">" is classified as "auto-accept". -/
theorem c2_auto_accept_first_match_witness :
    containsSub "⏵⏵ auto-accept edits on".data
      (utf8DecodeIgnore (pyEncode "⏵⏵ auto-accept edits on >".data)) =
      true ∧
    (ClaudeState.init.parse_output
        (pyEncode "⏵⏵ auto-accept edits on >".data)).mode =
      "auto-accept".data :=
  ⟨by decide,
   c2_auto_accept_first_match ClaudeState.init
     (pyEncode "⏵⏵ auto-accept edits on >".data) (by decide)⟩

/-- C3 (code bug): on a started wrapper, the first `cleanup` succeeds but
a second invocation raises: `cleanup` never resets `self.master_fd`, so
the second call re-executes `os.close` on the already-closed master
descriptor, and that call is not guarded by any `try`. -/
theorem c3_cleanup_second_raises :
    (cleanup startedWrapper startedSys).isSome = true ∧
    cleanupTwice startedWrapper startedSys = none := by decide

/-- C4 counterexample: in `src/wrapper/claude_deck_wrapper.py`, a POST to
/command whose valid-JSON body lacks the "command" field is answered with
HTTP 200 (not 400), and a command IS dispatched: the missing field
defaults to the empty string, whose framing writes one carriage-return
byte to the child. -/
theorem c4_missing_command_counterexample :
    wrapper_do_POST 3 true true "/command".data (some CmdField.absent) =
      (200, some ("sent".data, []), [[13]]) ∧
    (wrapper_do_POST 3 true true "/command".data
      (some CmdField.absent)).1 ≠ 400 := by decide

/-- C4 amended: the simplified variant (`src/claude_deck_wrapper.py`)
answers a valid-JSON body missing "command" with 400 and dispatches
nothing; the wrapper variant (`src/wrapper/claude_deck_wrapper.py`)
defaults the missing field to the empty string and dispatches it with
HTTP 200 (writing a carriage return when the channel is open), answering
400 only when "command" is explicitly JSON null. -/
theorem c4_missing_command_amended (fd : Nat) (running chOpen : Bool) :
    simple_do_POST fd running chOpen "/command".data (some CmdField.absent) =
      (400, none, []) ∧
    wrapper_do_POST fd running chOpen "/command".data (some CmdField.null) =
      (400, none, []) ∧
    (wrapper_do_POST fd running chOpen "/command".data
      (some CmdField.absent)).1 = 200 ∧
    wrapper_do_POST 3 true true "/command".data (some CmdField.absent) =
      (200, some ("sent".data, []), [[13]]) :=
  ⟨rfl, rfl, rfl, by decide⟩

/-- C5 counterexample: the code decodes with `errors='ignore'`, not
`errors='replace'`: ingesting the single invalid byte 0xFF from a fresh
state leaves the buffer empty, whereas replacement semantics would have
appended one U+FFFD character. -/
theorem c5_decode_counterexample :
    (ClaudeState.init.parse_output [0xFF]).buffer = [] ∧
    utf8DecodeReplace [0xFF] = ['�'] ∧
    (ClaudeState.init.parse_output [0xFF]).buffer ≠
      ClaudeState.init.buffer ++ utf8DecodeReplace [0xFF] := by decide

/-- C5 amended: for every byte chunk, including invalid UTF-8,
`parse_output` decodes totally (never an error) with each invalid byte
sequence DROPPED (`errors='ignore'`), and appends the decoded text to the
buffer, subject to the 2000-character truncation; concretely an invalid
byte between two valid ones simply disappears. -/
theorem c5_decode_amended (s : ClaudeState) (d : List Nat) :
    (s.parse_output d).buffer =
      truncBuffer (s.buffer ++ utf8DecodeIgnore d) ∧
    utf8DecodeIgnore [0x61, 0xFF, 0x62] = "ab".data :=
  ⟨rfl, by decide⟩

/-- C6 counterexample: for the one-character non-ASCII command "é" the
general framing writes 3 bytes (two UTF-8 bytes plus the carriage
return), not len(command)+1 = 2: the byte total is the UTF-8 byte length
plus one, which exceeds the character count for non-ASCII commands. -/
theorem c6_framing_counterexample :
    ((send_command 3 true true "é".data).2.map List.length).sum = 3 ∧
    "é".data.length + 1 = 2 ∧
    ((send_command 3 true true "é".data).2.map List.length).sum ≠
      "é".data.length + 1 := by decide

/-- C6 amended: under the dispatch guards, `send_command` frames by the
three-policy priority: a command starting with the escape character 0x1B
is written verbatim (UTF-8 bytes) with no trailing carriage return; the
empty command writes exactly one carriage-return byte; every other
command writes its UTF-8 bytes followed by exactly one carriage return,
for a total of (UTF-8 byte length of the command) + 1 bytes (which equals
len(command)+1 exactly when the command is pure ASCII). -/
theorem c6_framing_amended (fd : Nat) (running chOpen : Bool)
    (cmd : List Char) (hfd : fd ≠ 0) (hr : running = true)
    (hc : chOpen = true) :
    (cmd.head? = some '\x1b' →
      (send_command fd running chOpen cmd).2 = [pyEncode cmd]) ∧
    (cmd = [] → (send_command fd running chOpen cmd).2 = [[13]]) ∧
    (cmd.head? ≠ some '\x1b' → cmd ≠ [] →
      (send_command fd running chOpen cmd).2 = [pyEncode cmd, [13]] ∧
      ((send_command fd running chOpen cmd).2.map List.length).sum =
        (pyEncode cmd).length + 1) := by
  subst hr hc
  have hgd : (fd != 0 && true) = true := by simp [hfd]
  have hsc : send_command fd true true cmd = (true, framingWrites cmd) := by
    unfold send_command osWriteAll
    rw [if_pos hgd]
    simp
  refine ⟨?_, ?_, ?_⟩
  · intro h1
    rw [hsc]
    unfold framingWrites
    rw [if_pos h1]
  · intro h2
    subst h2
    rw [hsc]
    simp [framingWrites]
  · intro h1 h2
    rw [hsc]
    unfold framingWrites
    rw [if_neg h1, if_neg h2]
    exact ⟨rfl, by simp⟩

/-- Witness for C6 amended: the ASCII command "help" writes its four
bytes then one carriage return, five bytes in total. -/
theorem c6_framing_amended_witness :
    (send_command 3 true true "help".data).2 = [pyEncode "help".data, [13]] ∧
    ((send_command 3 true true "help".data).2.map List.length).sum =
      (pyEncode "help".data).length + 1 :=
  (c6_framing_amended 3 true true "help".data (by decide) rfl rfl).2.2
    (by decide) (by decide)

/-- C7: prompt extraction strips the ANSI color/erase escape sequences
from the whole buffer, splits it on newlines, scans from the most recent
line backward and takes the first stripped line that is non-empty,
contains ">" and does not start with "["; on the concrete buffer
"\x1b[32mfoo>\x1b[0m\n[log]\nbar> " it yields the prompt "bar>". -/
theorem c7_prompt_extraction :
    (∀ (s : ClaudeState) (d : List Nat),
      (s.parse_output d).current_prompt =
        (extractPromptOpt (s.parse_output d).buffer).getD
          s.current_prompt) ∧
    (ClaudeState.init.parse_output
        (pyEncode "\x1b[32mfoo>\x1b[0m\n[log]\nbar> ".data)).current_prompt =
      "bar>".data :=
  ⟨fun s d => rfl, by decide⟩

/-- C8: when the write to the master descriptor raises `OSError` (child
gone), `send_command` returns false — the exception is caught, nothing is
retried — and the HTTP handler answers the client with a 200 response
whose body carries status "failed". -/
theorem c8_dispatch_failure (fd : Nat) (cmd : List Char) (hfd : fd ≠ 0) :
    send_command fd true false cmd = (false, []) ∧
    wrapper_do_POST fd true false "/command".data
        (some (CmdField.str cmd)) =
      (200, some ("failed".data, cmd), []) := by
  have hgd : (fd != 0 && true) = true := by simp [hfd]
  have h1 : send_command fd true false cmd = (false, []) := by
    unfold send_command osWriteAll
    rw [if_pos hgd]
    simp
  refine ⟨h1, ?_⟩
  simp [wrapper_do_POST, h1]

/-- Witness for C8: dispatching "help" on a closed channel reports
`(false, no writes)` and the HTTP body says "failed". -/
theorem c8_dispatch_failure_witness :
    send_command 3 true false "help".data = (false, []) ∧
    wrapper_do_POST 3 true false "/command".data
        (some (CmdField.str "help".data)) =
      (200, some ("failed".data, "help".data), []) :=
  c8_dispatch_failure 3 "help".data (by decide)

/-- C9: `mode` is "unknown" at construction, and after any sequence of
`parse_output` calls it is one of the ten enumerated mode values — every
assignment performed by the classification chain writes only a value of
the enumeration. -/
theorem c9_mode_enum (chunks : List (List Nat)) :
    ClaudeState.init.mode = "unknown".data ∧
    (chunks.foldl ClaudeState.parse_output ClaudeState.init).mode ∈
      enumModes := by
  refine ⟨rfl, ?_⟩
  have key : ∀ (ch : List (List Nat)) (s : ClaudeState),
      s.mode ∈ enumModes →
      (ch.foldl ClaudeState.parse_output s).mode ∈ enumModes := by
    intro ch
    induction ch with
    | nil => intro s hs; simpa using hs
    | cons d ds ih =>
      intro s hs
      rw [List.foldl_cons]
      apply ih
      have hmode : (s.parse_output d).mode =
          (classifyChunk (utf8DecodeIgnore d)
            ((utf8DecodeIgnore d).map pyToLower) (s.mode, s.model)).1 := rfl
      rcases classifyChunk_fst_mem (utf8DecodeIgnore d)
          ((utf8DecodeIgnore d).map pyToLower) (s.mode, s.model) with h | h
      · rw [hmode, h]; exact hs
      · rw [hmode]; exact h
  exact key chunks ClaudeState.init (by decide)

/-- C10: a `parse_output` call either leaves `current_prompt` unchanged or
sets it to a non-empty line, so ingestion never clears a previously
extracted prompt back to empty; and when no line of the ANSI-stripped
post-call buffer qualifies (non-empty, contains ">", does not start with
"["), `current_prompt` is exactly unchanged by the call. -/
theorem c10_prompt_frame (s : ClaudeState) (d : List Nat) :
    ((s.parse_output d).current_prompt = s.current_prompt ∨
      (s.parse_output d).current_prompt ≠ []) ∧
    (extractPromptOpt (s.parse_output d).buffer = none →
      (s.parse_output d).current_prompt = s.current_prompt) := by
  have hp : (s.parse_output d).current_prompt =
      (extractPromptOpt (s.parse_output d).buffer).getD
        s.current_prompt := rfl
  constructor
  · rcases hcase : extractPromptOpt (s.parse_output d).buffer with _ | p
    · left; rw [hp, hcase]; rfl
    · right
      rw [hp, hcase, Option.getD_some]
      exact firstQualifying_some_ne_nil _ p hcase
  · intro h
    rw [hp, h]
    rfl

/-- Witness for C10: the chunk "hello" produces a buffer with no
qualifying line, and the prompt of the fresh state stays empty. -/
theorem c10_prompt_frame_witness :
    extractPromptOpt
        (ClaudeState.init.parse_output (pyEncode "hello".data)).buffer =
      none ∧
    (ClaudeState.init.parse_output (pyEncode "hello".data)).current_prompt =
      ClaudeState.init.current_prompt :=
  ⟨by decide,
   (c10_prompt_frame ClaudeState.init (pyEncode "hello".data)).2
     (by decide)⟩

end Claudeck
